import Mathlib

/-!
Verification of the tournament participation client of this repository.

The definitions below are a shallow embedding of the Python sources:

* namespace `RPS`       — src/apps-rps/rps-game-agent/game_processor.py and
                          the reconnect route of src/apps-rps/rps-game-agent/app.py;
* namespace `PSRAgentApi` — src/apps/psr-game-agent/api_client.py;
* namespace `PSRClient` — src/apps/psr-game-client/psr_game_client.py
                          (submit_move and the move step of play_tournament).

External effects are modelled as explicit inputs: every HTTP exchange is a
parameter of the function that performs it, and the answer/move providers
(LLM calls, random number generator) are oracle inputs.  Log lines are kept
as appends to the status log, but their text is abbreviated (the Python code
prepends a wall-clock timestamp and prints several formatted lines; no claim
depends on the text, only on which fields of the session change).
-/

/-- Python truthiness of an optional integer id: `if not self.player_id`
    is taken when the id is `None` or `0`. -/
def pyTruthyId : Option Int → Bool
  | none => false
  | some n => n != 0

/-- ASCII lowering of one character, as Python's `str.lower()` does on the
    ASCII range the move strings live in. -/
def lowerChar (c : Char) : Char :=
  if 65 ≤ c.toNat ∧ c.toNat ≤ 90 then Char.ofNat (c.toNat + 32) else c

/-- Python's `move.lower()`. -/
def pyLower (s : String) : String := ⟨s.data.map lowerChar⟩

namespace RPS

/-- One entry of the results list returned by
    `GET /api/player/(id)/results`, as read by `game_processor.py`
    (`roundNumber`, `score`, `answerCorrect`, `move`). -/
structure RoundResult where
  roundNumber : Int
  score : Int
  answerCorrect : Bool
  move : Option Int
deriving DecidableEq, Repr

/-- The decoded response of the results endpoint as `get_current_results` /
    `get_final_results` discriminate it: a dict containing an `error` key,
    a JSON list of result entries, or some other non-list JSON value
    (replaced by the empty list via the `isinstance(results_response, list)`
    check). -/
inductive ResultsResponse where
  | err (msg : String)
  | list (rs : List RoundResult)
  | nonList
deriving DecidableEq, Repr

/-- The mutable fields of `GameProcessor` (game_processor.py, `__init__`). -/
structure GState where
  player_name : String
  player_id : Option Int
  current_round : Int
  tournament_status : String
  round_status : String
  is_running : Bool
  status_log : List String
  results : List RoundResult
  last_completed_round : Int
  latest_score : Int
deriving DecidableEq, Repr

/-- `GameProcessor.__init__(player_name)`. -/
def initGState (name : String) : GState :=
  { player_name := name
    player_id := none
    current_round := 1
    tournament_status := "Not Started"
    round_status := "Not Started"
    is_running := false
    status_log := []
    results := []
    last_completed_round := 0
    latest_score := 0 }

/-- `GameProcessor.log_status` (timestamp omitted, see the header comment). -/
def log_status (s : GState) (msg : String) : GState :=
  { s with status_log := s.status_log ++ [msg] }

/-- `GameProcessor.get_current_results`: replaces `self.results` wholesale
    with the returned list (or `[]` for a non-list response), then compares
    the round number of the *last* entry with `last_completed_round`. -/
def get_current_results (s : GState) (resp : ResultsResponse) : GState :=
  if pyTruthyId s.player_id = false then s
  else
    match resp with
    | .err m => log_status s ("Error getting current results: " ++ m)
    | _ =>
      let newResults : List RoundResult :=
        match resp with
        | .list rs => rs
        | _ => []
      let s1 := { s with results := newResults }
      match newResults.getLast? with
      | none => s1
      | some latest =>
        if latest.roundNumber > s1.last_completed_round then
          log_status
            { s1 with last_completed_round := latest.roundNumber
                      latest_score := latest.score }
            "Round COMPLETED"
        else
          log_status s1 "Round result"

/-- The derived total score, as `get_final_results` computes it:
    `sum(result.get("score", 0) for result in self.results)`. -/
def totalScore (rs : List RoundResult) : Int :=
  (rs.map (fun r => r.score)).sum

/-- `GameProcessor.get_final_results`: replaces `self.results` wholesale and
    logs the total; `last_completed_round` is not touched. -/
def get_final_results (s : GState) (resp : ResultsResponse) : GState :=
  if pyTruthyId s.player_id = false then s
  else
    let s0 := log_status s "Fetching final results..."
    match resp with
    | .err m => log_status s0 ("Error getting results: " ++ m)
    | .list rs =>
      let s1 := { s0 with results := rs }
      if rs = [] then log_status s1 "No results available."
      else log_status s1 "Final Results - Total Score"
    | .nonList => log_status { s0 with results := [] } "No results available."

/-- `GameProcessor.stop`. -/
def stop (s : GState) : GState :=
  { s with is_running := false }

/-- The status snapshot fields `monitor_and_play` reads out of a successful
    `get_player_status` response, with the same `.get` defaults:
    `tournamentStatus` (default 0), `currentRound` (default 1),
    `currentRoundStatus` (default None), `currentQuestion` (default None),
    `canSubmit` (default False). -/
structure StatusSnapshot where
  tournamentStatus : Int
  currentRound : Int
  currentRoundStatus : Option Int
  currentQuestion : Option String
  canSubmit : Bool
deriving DecidableEq, Repr

/-- A `get_player_status` response: an error dict or a snapshot. -/
inductive StatusResponse where
  | err (msg : String)
  | ok (snap : StatusSnapshot)
deriving DecidableEq, Repr

/-- A `submit_answer` response as `monitor_and_play` discriminates it:
    an error dict, or a response whose `success` field is truthy or not. -/
inductive SubmitResponse where
  | err (msg : String)
  | ok (success : Bool)
deriving DecidableEq, Repr

/-- Python truthiness of the question string: the submit branch requires
    `question` to be present and non-empty (`... and question`). -/
def questionTruthy : Option String → Bool
  | none => false
  | some q => q != ""

/-- The `tournament_names` lookup of `monitor_and_play`
    (default "Unknown"). -/
def tournamentName (n : Int) : String :=
  if n = 0 then "Pending"
  else if n = 1 then "InProgress"
  else if n = 2 then "Completed"
  else "Unknown"

/-- The `round_names` lookup of `monitor_and_play`
    (None maps to "Not Started", default "Unknown"). -/
def roundName : Option Int → String
  | none => "Not Started"
  | some n =>
    if n = 0 then "Pending"
    else if n = 1 then "InProgress"
    else if n = 2 then "Completed"
    else "Unknown"

/-- The submit condition of `monitor_and_play`:
    `tournament_status == 1 and round_status == 1 and can_submit and question`. -/
def canSubmitNow (snap : StatusSnapshot) : Bool :=
  snap.tournamentStatus == 1 && snap.currentRoundStatus == some 1
    && snap.canSubmit && questionTruthy snap.currentQuestion

/-- One call to `self.client.submit_answer(player_id, round, answer, move)`:
    the observable submission the loop emits. -/
structure SubmitAction where
  roundNumber : Int
  answer : String
  move : Int
deriving DecidableEq, Repr

/-- The state of one `monitor_and_play` activation: the processor fields
    plus the local variable `rounds_completed`. -/
structure LoopState where
  g : GState
  rounds_completed : Int
deriving DecidableEq, Repr

/-- The external inputs consumed by one iteration of the polling loop:
    the status response, the oracle outputs of `agent.answer_question` and
    `choose_rps_move`, and the responses of the submit and results calls
    (used only on the paths that perform them). -/
structure IterInput where
  status : StatusResponse
  answer : String
  move : Int
  submitResp : SubmitResponse
  resultsResp : ResultsResponse
deriving DecidableEq, Repr

/-- The outcome of one loop iteration: the next state, whether the
    iteration executed `break`, and the submissions it sent. -/
structure IterOut where
  next : LoopState
  brk : Bool
  actions : List SubmitAction
deriving DecidableEq, Repr

/-- One iteration of the `while` body of `monitor_and_play` (the `try`
    block; `time.sleep` calls are irrelevant to state).  Note that the
    submit branch is guarded only by the snapshot (`canSubmitNow`): the
    processor keeps no record of its own past submissions. -/
def monitor_step (ls : LoopState) (inp : IterInput) : IterOut :=
  match inp.status with
  | .err m =>
    { next := { ls with g := log_status ls.g ("Error getting status: " ++ m) }
      brk := false
      actions := [] }
  | .ok snap =>
    let g0 := { ls.g with
                tournament_status := tournamentName snap.tournamentStatus
                round_status := roundName snap.currentRoundStatus
                current_round := snap.currentRound }
    let g1 := log_status g0 "status line"
    if snap.tournamentStatus = 2 then
      { next := { ls with
                  g := get_final_results
                        (log_status g1 "Tournament completed!") inp.resultsResp }
        brk := true
        actions := [] }
    else if canSubmitNow snap then
      let act : SubmitAction :=
        { roundNumber := snap.currentRound, answer := inp.answer, move := inp.move }
      match inp.submitResp with
      | .err m =>
        { next := { ls with g := log_status g1 ("Submit error: " ++ m) }
          brk := false
          actions := [act] }
      | .ok true =>
        let g2 := log_status g1 "Successfully submitted answer and move"
        { next := { g := get_current_results g2 inp.resultsResp
                    rounds_completed := snap.currentRound }
          brk := false
          actions := [act] }
      | .ok false =>
        { next := { ls with g := log_status g1 "Submit failed" }
          brk := false
          actions := [act] }
    else
      { next := { ls with g := g1 }, brk := false, actions := [] }

/-- `max_rounds = 5` in `monitor_and_play`. -/
def maxRounds : Int := 5

/-- The code run when the `while` loop of `monitor_and_play` exits:
    `self.is_running = False` then a final log line. -/
def finishLoop (ls : LoopState) : LoopState :=
  { ls with g := log_status { ls.g with is_running := false }
                            "Game monitoring stopped." }

/-- The `while self.is_running and rounds_completed < max_rounds` loop of
    `monitor_and_play`, driven by a finite trace of iteration inputs.
    When the guard fails or an iteration breaks, the post-loop code runs
    (`finishLoop`); when the trace is exhausted with the guard still true,
    the loop is still in flight and the mid-loop state is returned. -/
def monitor_loop (ls : LoopState) : List IterInput → LoopState
  | [] =>
    if ls.g.is_running = true ∧ ls.rounds_completed < maxRounds then ls
    else finishLoop ls
  | i :: rest =>
    if ls.g.is_running = true ∧ ls.rounds_completed < maxRounds then
      let out := monitor_step ls i
      if out.brk then finishLoop out.next
      else monitor_loop out.next rest
    else finishLoop ls

/-- `GameProcessor.monitor_and_play` over a finite input trace: the early
    return when the player id is not truthy, otherwise set
    `is_running = True`, `rounds_completed = 0` and run the loop. -/
def monitor_and_play (s : GState) (inputs : List IterInput) : GState :=
  if pyTruthyId s.player_id = false then
    log_status s "Error: Player not registered!"
  else
    let g := log_status { s with is_running := true }
                        "Starting autonomous game monitoring..."
    (monitor_loop { g := g, rounds_completed := 0 } inputs).g

/-- The `/reconnect` route of app.py: builds a `GameProcessor` named
    "Player (id)" with the given id, checks `get_player_status`; on an error
    response the agent is discarded (`game_agent = None`, modelled as
    `none`); on success it logs, runs `get_current_results`, and hands the
    session to the background monitor. -/
def reconnect_game (pid : Int) (statusResp : StatusResponse)
    (resultsResp : ResultsResponse) : Option GState :=
  let g := { initGState ("Player " ++ toString pid) with player_id := some pid }
  match statusResp with
  | .err _ => none
  | .ok _ =>
    let g1 := log_status g "Successfully reconnected"
    some (get_current_results g1 resultsResp)

end RPS

namespace PSRAgentApi

/-- The body of an HTTP response as `response.json()` sees it: a JSON
    document that decodes (kept opaque — the client returns it unchanged)
    or a body that fails JSON decoding. -/
inductive Body where
  | json (doc : String)
  | malformed
deriving DecidableEq, Repr

/-- The outcome of one `requests` call in api_client.py: either the call
    itself raises a `requests.RequestException` (connection failure,
    timeout, ...) or a response with a status code and a body arrives. -/
inductive ReqOutcome where
  | requestExc (msg : String)
  | response (status : Nat) (body : Body)
deriving DecidableEq, Repr

/-- A Python exception as the `except requests.RequestException` clause
    discriminates it: its message and whether it is a
    `requests.RequestException` subclass. -/
structure PyExc where
  msg : String
  isRequestExc : Bool
deriving DecidableEq, Repr

/-- The message of the `HTTPError` raised by `response.raise_for_status()`
    (abbreviated; the real text also carries the reason and URL, which no
    claim depends on). -/
def httpErrorMsg (status : Nat) : String :=
  toString status ++ " Error"

/-- What a method of `PSRGameClient` (api_client.py) returns to its caller:
    the decoded JSON payload, the dict containing the key "error" mapped to
    `str(e)`, or an exception escaping uncaught. -/
inductive ApiResult where
  | payload (doc : String)
  | errorDict (msg : String)
  | uncaught (msg : String)
deriving DecidableEq, Repr

/-- Result of running the `try` body
    (`request; raise_for_status(); return response.json()`). -/
inductive TryResult where
  | ok (doc : String)
  | raised (e : PyExc)
deriving DecidableEq, Repr

/-- The `try` body shared by all four methods of api_client.py.
    `raise_for_status` raises `HTTPError` (a `RequestException`) for
    status >= 400; a malformed body makes `response.json()` raise
    `requests.exceptions.JSONDecodeError`, which since requests 2.27 is a
    `RequestException` subclass. -/
def tryRequest (o : ReqOutcome) : TryResult :=
  match o with
  | .requestExc m => .raised { msg := m, isRequestExc := true }
  | .response status body =>
    if 400 ≤ status then
      .raised { msg := httpErrorMsg status, isRequestExc := true }
    else
      match body with
      | .json doc => .ok doc
      | .malformed => .raised { msg := "JSONDecodeError", isRequestExc := true }

/-- The `try/except requests.RequestException` wrapper shared by all four
    methods: a caught exception becomes the dict with key "error" holding
    `str(e)`; any other exception would escape to the caller. -/
def handleRequest (o : ReqOutcome) : ApiResult :=
  match tryRequest o with
  | .ok doc => .payload doc
  | .raised e => if e.isRequestExc then .errorDict e.msg else .uncaught e.msg

/-- `PSRGameClient.register_player` (api_client.py).  The argument shapes
    the request; the response handling is the shared wrapper. -/
def register_player (name : String) (o : ReqOutcome) : ApiResult :=
  let _ := name
  handleRequest o

/-- `PSRGameClient.get_player_status` (api_client.py). -/
def get_player_status (player_id : Int) (o : ReqOutcome) : ApiResult :=
  let _ := player_id
  handleRequest o

/-- `PSRGameClient.submit_answer` (api_client.py). -/
def submit_answer (player_id round_number : Int) (answer : String)
    (move : Int) (o : ReqOutcome) : ApiResult :=
  let _ := (player_id, round_number, answer, move)
  handleRequest o

/-- `PSRGameClient.get_player_results` (api_client.py). -/
def get_player_results (player_id : Int) (o : ReqOutcome) : ApiResult :=
  let _ := player_id
  handleRequest o

/-- Modelled from the spec: the typed failure taxonomy the spec assigns to
    TransportClient results (`NetworkError`, `ServerError(code)`,
    `MalformedResponse`), used to compare the spec's contract with what the
    code returns. -/
inductive SpecClass where
  | success
  | networkError
  | serverError (code : Nat)
  | malformedResponse
deriving DecidableEq, Repr

/-- Modelled from the spec: which class of the spec's taxonomy a request
    outcome falls in. -/
def specClass (o : ReqOutcome) : SpecClass :=
  match o with
  | .requestExc _ => .networkError
  | .response status body =>
    if 400 ≤ status then .serverError status
    else
      match body with
      | .json _ => .success
      | .malformed => .malformedResponse

end PSRAgentApi

namespace PSRClient

/-- The `MOVES` table of config.py (psr-game-client). -/
def MOVES : List (String × Int) := [("rock", 1), ("paper", 2), ("scissors", 3)]

/-- `move.lower() in MOVES` / `MOVES[move.lower()]`. -/
def moveCode (m : String) : Option Int := MOVES.lookup m

/-- The outcome of the POST in `submit_move`: a `RequestException`
    (including `raise_for_status`), or a decoded body whose
    `success` field is read with default `False`. -/
inductive SubmitHttp where
  | exc (msg : String)
  | respOk (success : Bool)
deriving DecidableEq, Repr

/-- What one call to `PSRGameClient.submit_move` produces: its boolean
    return value and whether it sent an HTTP request at all. -/
structure SubmitResult where
  success : Bool
  requested : Bool
deriving DecidableEq, Repr

/-- `PSRGameClient.submit_move` (psr_game_client.py): early `False` when the
    player is not registered or the lowercased move is not a `MOVES` key —
    both without contacting the server and without substituting any default
    move; otherwise one POST whose `success` field is returned. -/
def submit_move (player_id : Option Int) (move : String)
    (http : SubmitHttp) : SubmitResult :=
  if pyTruthyId player_id = false then { success := false, requested := false }
  else
    match moveCode (pyLower move) with
    | none => { success := false, requested := false }
    | some _ =>
      match http with
      | .exc _ => { success := false, requested := true }
      | .respOk success => { success := success, requested := true }

/-- Python truthiness of the strategy's move (`if not move`). -/
def moveTruthy : Option String → Bool
  | none => false
  | some m => m != ""

/-- Where the move step of `play_tournament` leaves the run. -/
inductive RoundStep where
  | runEnds
  | continues
deriving DecidableEq, Repr

/-- The move step of `PSRGameClient.play_tournament` (the fragment after the
    strategy produced `move`): `if not move: return False`;
    `if not self.submit_move(move): return False`; otherwise continue to
    wait for match completion. -/
def playTournamentMoveStep (player_id : Option Int) (strategyMove : Option String)
    (http : SubmitHttp) : RoundStep :=
  if moveTruthy strategyMove = false then .runEnds
  else
    let sub := submit_move player_id (strategyMove.getD "") http
    if sub.success = false then .runEnds else .continues

end PSRClient

namespace RPS

/-- Modelled from the spec: the value the spec's ReconnectionHandler assigns
    to `lastCompletedRound` — `max(roundNumber)` among the returned entries,
    or 0 if the list is empty.  Stated here only to compare against what the
    code computes. -/
def specMaxRound (rs : List RoundResult) : Int :=
  (rs.map (fun r => r.roundNumber)).foldr max 0

/-- The session fields the spec's SessionState comprises, projected out of
    the processor state: everything except the status log (which the spec
    keeps outside SessionState) and the running flag. -/
def sessionCore (g : GState) :
    String × Option Int × Int × String × String × List RoundResult × Int × Int :=
  (g.player_name, g.player_id, g.current_round, g.tournament_status,
   g.round_status, g.results, g.last_completed_round, g.latest_score)

end RPS

open RPS PSRAgentApi PSRClient

/-! Concrete fixtures used by the per-claim witnesses and counterexamples. -/

/-- C1 fixture: a registered, running session at the top of the poll loop. -/
def c1_ls : LoopState :=
  { g := { initGState "Alice" with player_id := some 7, is_running := true }
    rounds_completed := 0 }

/-- C1 fixture: the round-1 snapshot of the spec's concrete scenario. -/
def c1_snap : StatusSnapshot :=
  { tournamentStatus := 1, currentRound := 1, currentRoundStatus := some 1
    currentQuestion := some "What is 2+2?", canSubmit := true }

/-- C1 fixture: a poll cycle that sees `c1_snap`, answers "4", plays Rock,
    and gets an acknowledged (`success: true`) submit response. -/
def c1_input : IterInput :=
  { status := .ok c1_snap, answer := "4", move := 0
    submitResp := .ok true, resultsResp := .list [] }

/-- C2 fixture: the accumulated round-1 result entry. -/
def c2_entry : RoundResult :=
  { roundNumber := 1, score := 2, answerCorrect := true, move := some 0 }

/-- C2 fixture: a session that has already accumulated the round-1 entry. -/
def c2_state : GState :=
  { initGState "Alice" with
      player_id := some 7, results := [c2_entry], last_completed_round := 1 }

/-- C3 fixture: a registered, running session at the top of the poll loop. -/
def c3_ls : LoopState :=
  { g := { initGState "Bob" with player_id := some 9, is_running := true }
    rounds_completed := 0 }

/-- C3 fixture: a poll cycle whose status call fails. -/
def c3_input : IterInput :=
  { status := .err "connection refused", answer := "", move := 0
    submitResp := .err "", resultsResp := .nonList }

/-- C4 fixture: a freshly registered session. -/
def c4_g : GState := { initGState "Carol" with player_id := some 11 }

/-- C4 fixture: a running loop state for the witness. -/
def c4_ls : LoopState :=
  { g := { c4_g with is_running := true }, rounds_completed := 0 }

/-- C4 fixture: a round-5 snapshot with the tournament still in progress. -/
def c4_snap : StatusSnapshot :=
  { tournamentStatus := 1, currentRound := 5, currentRoundStatus := some 1
    currentQuestion := some "Q5", canSubmit := true }

/-- C4 fixture: a poll cycle that submits successfully for round 5. -/
def c4_input : IterInput :=
  { status := .ok c4_snap, answer := "a", move := 1
    submitResp := .ok true, resultsResp := .list [] }

/-- C5 fixture: a status snapshot for a successful reconnect. -/
def c5_snap : StatusSnapshot :=
  { tournamentStatus := 1, currentRound := 2, currentRoundStatus := some 1
    currentQuestion := none, canSubmit := false }

/-- C5 fixture: a results list that is not ordered by round number: the
    round-2 entry comes first, the round-1 entry last. -/
def c5_rs : List RoundResult :=
  [ { roundNumber := 2, score := 5, answerCorrect := true, move := some 0 }
  , { roundNumber := 1, score := 3, answerCorrect := false, move := some 1 } ]

/-- C7 fixture: a network failure whose `str(e)` happens to be the same text
    an HTTP 500 `HTTPError` carries. -/
def c7_o1 : ReqOutcome := .requestExc (httpErrorMsg 500)

/-- C7 fixture: an HTTP 500 response. -/
def c7_o2 : ReqOutcome := .response 500 .malformed

/-- C9 fixture: a registered session before any result arrived. -/
def c9_g : GState := { initGState "Dave" with player_id := some 5 }

/-- C9 fixture: the round-1 entry of the spec's concrete scenario. -/
def c9_r1 : RoundResult :=
  { roundNumber := 1, score := 2, answerCorrect := true, move := some 0 }

/-- C9 fixture: the round-2 entry of the spec's concrete scenario. -/
def c9_r2 : RoundResult :=
  { roundNumber := 2, score := 1, answerCorrect := false, move := some 2 }

/-! Helper lemmas shared by the per-claim theorems. -/

theorem gcr_results (s : GState) (r : ResultsResponse) :
    (get_current_results s r).results =
      if pyTruthyId s.player_id = false then s.results
      else
        match r with
        | .err _ => s.results
        | .list rs => rs
        | .nonList => [] := by
  unfold get_current_results
  by_cases h : pyTruthyId s.player_id = false
  · simp [h]
  · cases r with
    | err m => simp [h, log_status]
    | list rs =>
      simp only [h, if_false, if_neg h]
      cases hL : rs.getLast? with
      | none => simp [hL]
      | some x =>
        simp only [hL]
        by_cases hx : x.roundNumber > s.last_completed_round <;>
          simp [hx, log_status]
    | nonList => simp [h, log_status]

theorem gcr_lcr (s : GState) (r : ResultsResponse) :
    (get_current_results s r).last_completed_round =
      if pyTruthyId s.player_id = false then s.last_completed_round
      else
        match r with
        | .list rs =>
          match rs.getLast? with
          | none => s.last_completed_round
          | some x => max s.last_completed_round x.roundNumber
        | _ => s.last_completed_round := by
  unfold get_current_results
  by_cases h : pyTruthyId s.player_id = false
  · simp [h]
  · cases r with
    | err m => simp [h, log_status]
    | list rs =>
      simp only [h, if_false, if_neg h]
      cases hL : rs.getLast? with
      | none => simp [hL]
      | some x =>
        simp only [hL]
        by_cases hx : x.roundNumber > s.last_completed_round <;>
          simp [hx, log_status] <;> omega
    | nonList => simp [h, log_status]

theorem gcr_is_running (s : GState) (r : ResultsResponse) :
    (get_current_results s r).is_running = s.is_running := by
  unfold get_current_results
  by_cases h : pyTruthyId s.player_id = false
  · simp [h]
  · cases r with
    | err m => simp [h, log_status]
    | list rs =>
      simp only [h, if_false, if_neg h]
      cases hL : rs.getLast? with
      | none => simp [hL]
      | some x =>
        simp only [hL]
        by_cases hx : x.roundNumber > s.last_completed_round <;>
          simp [hx, log_status]
    | nonList => simp [h, log_status]

theorem gfr_lcr (s : GState) (r : ResultsResponse) :
    (get_final_results s r).last_completed_round = s.last_completed_round := by
  unfold get_final_results
  by_cases h : pyTruthyId s.player_id = false
  · simp [h]
  · cases r with
    | err m => simp [h, log_status]
    | list rs =>
      by_cases hrs : rs = [] <;> simp [h, hrs, log_status]
    | nonList => simp [h, log_status]

theorem gfr_is_running (s : GState) (r : ResultsResponse) :
    (get_final_results s r).is_running = s.is_running := by
  unfold get_final_results
  by_cases h : pyTruthyId s.player_id = false
  · simp [h]
  · cases r with
    | err m => simp [h, log_status]
    | list rs =>
      by_cases hrs : rs = [] <;> simp [h, hrs, log_status]
    | nonList => simp [h, log_status]

theorem gcr_lcr_le (s : GState) (r : ResultsResponse) :
    s.last_completed_round ≤ (get_current_results s r).last_completed_round := by
  rw [gcr_lcr]
  split
  · exact le_refl _
  · cases r with
    | err m => exact le_refl _
    | list rs =>
      dsimp only
      cases hL : rs.getLast? with
      | none => exact le_refl _
      | some x => exact le_max_left _ _
    | nonList => exact le_refl _

theorem finishLoop_is_running (ls : LoopState) :
    (finishLoop ls).g.is_running = false := rfl

theorem finishLoop_lcr (ls : LoopState) :
    (finishLoop ls).g.last_completed_round = ls.g.last_completed_round := rfl

theorem monitor_step_is_running (ls : LoopState) (i : IterInput) :
    (monitor_step ls i).next.g.is_running = ls.g.is_running := by
  cases hs : i.status with
  | err m => simp [monitor_step, hs, log_status]
  | ok snap =>
    simp only [monitor_step, hs]
    by_cases h2 : snap.tournamentStatus = 2
    · simp [h2, gfr_is_running, log_status]
    · simp only [h2, if_false, if_neg h2]
      by_cases hc : canSubmitNow snap = true
      · simp only [hc, if_true, if_pos hc]
        cases hsr : i.submitResp with
        | err m => simp [log_status]
        | ok b =>
          cases b
          · simp [log_status]
          · simp [gcr_is_running, log_status]
      · simp only [hc, if_neg hc]
        simp [log_status]

theorem monitor_step_lcr_le (ls : LoopState) (i : IterInput) :
    ls.g.last_completed_round ≤ (monitor_step ls i).next.g.last_completed_round := by
  cases hs : i.status with
  | err m => simp [monitor_step, hs, log_status]
  | ok snap =>
    simp only [monitor_step, hs]
    by_cases h2 : snap.tournamentStatus = 2
    · simp [h2, gfr_lcr, log_status]
    · simp only [h2, if_false, if_neg h2]
      by_cases hc : canSubmitNow snap = true
      · simp only [hc, if_true, if_pos hc]
        cases hsr : i.submitResp with
        | err m => simp [log_status]
        | ok b =>
          cases b
          · simp [log_status]
          · refine le_trans ?_ (gcr_lcr_le _ _)
            simp [log_status]
      · simp only [hc, if_neg hc]
        simp [log_status]

theorem monitor_loop_lcr_le (inputs : List IterInput) (ls : LoopState) :
    ls.g.last_completed_round ≤ (monitor_loop ls inputs).g.last_completed_round := by
  induction inputs generalizing ls with
  | nil =>
    simp only [monitor_loop]
    split
    · exact le_refl _
    · rw [finishLoop_lcr]
  | cons i rest ih =>
    simp only [monitor_loop]
    split
    · by_cases hb : (monitor_step ls i).brk = true
      · simp only [hb, if_true, if_pos hb, finishLoop_lcr]
        exact monitor_step_lcr_le ls i
      · simp only [hb, if_neg hb]
        exact le_trans (monitor_step_lcr_le ls i) (ih _)
    · rw [finishLoop_lcr]

theorem foldl_gcr_lcr_le (resps : List ResultsResponse) (s : GState) :
    s.last_completed_round ≤ (resps.foldl get_current_results s).last_completed_round := by
  induction resps generalizing s with
  | nil => exact le_refl _
  | cons r rest ih =>
    exact le_trans (gcr_lcr_le s r) (ih _)

theorem monitor_step_err (ls : LoopState) (i : IterInput) (m : String)
    (h : i.status = .err m) :
    monitor_step ls i =
      { next := { ls with g := log_status ls.g ("Error getting status: " ++ m) }
        brk := false
        actions := [] } := by
  simp [monitor_step, h]

theorem monitor_loop_err : ∀ (inputs : List IterInput) (ls : LoopState),
    ls.g.is_running = true → ls.rounds_completed < maxRounds →
    (∀ i ∈ inputs, ∃ m, i.status = StatusResponse.err m) →
    sessionCore (monitor_loop ls inputs).g = sessionCore ls.g ∧
    (monitor_loop ls inputs).g.is_running = true ∧
    (monitor_loop ls inputs).rounds_completed = ls.rounds_completed := by
  intro inputs
  induction inputs with
  | nil =>
    intro ls hrun hrc _
    simp only [monitor_loop]
    rw [if_pos ⟨hrun, hrc⟩]
    exact ⟨rfl, hrun, rfl⟩
  | cons i rest ih =>
    intro ls hrun hrc herr
    obtain ⟨m, hm⟩ := herr i (List.mem_cons_self i rest)
    have hrest : ∀ j ∈ rest, ∃ m2, j.status = StatusResponse.err m2 :=
      fun j hj => herr j (List.mem_cons_of_mem i hj)
    simp only [monitor_loop]
    rw [if_pos ⟨hrun, hrc⟩, monitor_step_err ls i m hm]
    dsimp only
    rw [if_neg (show ¬(false = true) by decide)]
    have h1 := ih { ls with g := log_status ls.g ("Error getting status: " ++ m) }
      (by simpa [log_status] using hrun) hrc hrest
    refine ⟨?_, h1.2.1, h1.2.2⟩
    rw [h1.1]
    rfl

/-! Per-claim theorems. -/

/-- Claim C1, counterexample: after a successful, acknowledged submission
    for round 1 (the submit response is `success: true` and
    `rounds_completed` advances to 1), a second poll returning the very
    same round-1 snapshot (tournament InProgress, round InProgress,
    canSubmit, question present) emits a further submission for round 1 —
    the claim says it must emit none. -/
theorem c1_counterexample :
    (monitor_step c1_ls c1_input).actions
      = [{ roundNumber := 1, answer := "4", move := 0 }] ∧
    (monitor_step c1_ls c1_input).next.rounds_completed = 1 ∧
    (monitor_step (monitor_step c1_ls c1_input).next c1_input).actions
      = [{ roundNumber := 1, answer := "4", move := 0 }] := by
  decide

/-- Claim C1, amended: the loop keeps no record of its own submissions —
    whether a poll cycle submits depends only on the freshly returned
    snapshot (tournament InProgress, round InProgress, canSubmit true,
    question present), for every prior state; at-most-once submission
    relies entirely on the server clearing `canSubmit` in later
    snapshots. -/
theorem c1_submit_decision_stateless (ls : LoopState) (i : IterInput) :
    (monitor_step ls i).actions =
      match i.status with
      | .err _ => []
      | .ok snap =>
        if canSubmitNow snap = true then
          [{ roundNumber := snap.currentRound, answer := i.answer, move := i.move }]
        else [] := by
  cases hs : i.status with
  | err m => simp [monitor_step, hs]
  | ok snap =>
    simp only [monitor_step, hs]
    by_cases h2 : snap.tournamentStatus = 2
    · have hne : (snap.tournamentStatus == 1) = false :=
        beq_eq_false_iff_ne.mpr (by rw [h2]; decide)
      have hc : canSubmitNow snap = false := by
        simp [canSubmitNow, hne]
      simp [h2, hc]
    · simp only [if_neg h2]
      by_cases hc : canSubmitNow snap = true
      · simp only [if_pos hc, hc, if_true]
        cases hsr : i.submitResp with
        | err m => simp
        | ok b => cases b <;> simp
      · simp [hc]

/-- Claim C2, counterexample: a session already holding the round-1 result
    entry receives a successful `getResults` response that is an empty
    list; the accumulated entry is dropped, not kept. -/
theorem c2_counterexample :
    c2_state.results = [c2_entry] ∧
    (get_current_results c2_state (.list [])).results = [] := by
  decide

/-- Claim C2, amended: the results log is not append-only — every
    successful (list-shaped) `getResults` response replaces
    `SessionState.results` wholesale, so a shorter or empty list truncates
    the accumulated log; only an error response leaves it unchanged (and a
    non-list response empties it). -/
theorem c2_results_replaced_wholesale (s : GState) (rs : List RoundResult)
    (m : String) (h : pyTruthyId s.player_id = true) :
    (get_current_results s (.list rs)).results = rs ∧
    (get_current_results s (.err m)).results = s.results ∧
    (get_current_results s .nonList).results = [] := by
  refine ⟨?_, ?_, ?_⟩ <;> rw [gcr_results] <;> simp [h]

/-- Claim C2, witness for `c2_results_replaced_wholesale` at a concrete
    session and responses. -/
theorem c2_witness :
    (get_current_results c2_state (.list [])).results = [] ∧
    (get_current_results c2_state (.err "boom")).results = c2_state.results ∧
    (get_current_results c2_state .nonList).results = [] :=
  c2_results_replaced_wholesale c2_state [] "boom" (by decide)

/-- Claim C3, counterexample: there is no cap of consecutive `getStatus`
    failures at which the run terminates — for every candidate cap, a run
    fed that many consecutive failures is still running (no
    `ConnectionLost` exists in the code). -/
theorem c3_counterexample :
    ¬ ∃ cap : Nat, 0 < cap ∧
      (monitor_loop c3_ls (List.replicate cap c3_input)).g.is_running = false := by
  rintro ⟨cap, -, hfalse⟩
  have h := (monitor_loop_err (List.replicate cap c3_input) c3_ls (by decide) (by decide)
    (by
      intro i hi
      rw [List.eq_of_mem_replicate hi]
      exact ⟨"connection refused", rfl⟩)).2.1
  rw [h] at hfalse
  exact absurd hfalse (by decide)

/-- Claim C3, amended: `getStatus` failures are retried indefinitely — for
    every number K of consecutive failures, the session fields (other than
    the appended status-log lines), the local round counter and the
    running flag are all unchanged; no failure count terminates the run
    and no `ConnectionLost` is ever surfaced. -/
theorem c3_errors_retried_forever (ls : LoopState) (inputs : List IterInput)
    (hrun : ls.g.is_running = true) (hrc : ls.rounds_completed < maxRounds)
    (herr : ∀ i ∈ inputs, ∃ m, i.status = StatusResponse.err m) :
    sessionCore (monitor_loop ls inputs).g = sessionCore ls.g ∧
    (monitor_loop ls inputs).g.is_running = true ∧
    (monitor_loop ls inputs).rounds_completed = ls.rounds_completed :=
  monitor_loop_err inputs ls hrun hrc herr

/-- Claim C3, witness for `c3_errors_retried_forever`: three consecutive
    failed polls leave the concrete session untouched and running. -/
theorem c3_witness :
    sessionCore (monitor_loop c3_ls (List.replicate 3 c3_input)).g
      = sessionCore c3_ls.g ∧
    (monitor_loop c3_ls (List.replicate 3 c3_input)).g.is_running = true ∧
    (monitor_loop c3_ls (List.replicate 3 c3_input)).rounds_completed
      = c3_ls.rounds_completed :=
  c3_errors_retried_forever c3_ls (List.replicate 3 c3_input) (by decide) (by decide)
    (by
      intro i hi
      rw [List.eq_of_mem_replicate hi]
      exact ⟨"connection refused", rfl⟩)

/-- Claim C4, counterexample: a single poll cycle in which the round-5
    submission succeeds ends the loop — `is_running` becomes false while
    the last observed tournament phase is still "InProgress", with no
    elimination detection and no explicit stop in the trace. -/
theorem c4_counterexample :
    (monitor_and_play c4_g [c4_input]).is_running = false ∧
    (monitor_and_play c4_g [c4_input]).tournament_status = "InProgress" := by
  decide

/-- Claim C4, amended: in each poll cycle of a running loop, `running`
    transitions to false exactly when the cycle breaks or the round counter
    reaches `max_rounds` (5), and the cycle breaks exactly when the
    snapshot reports the tournament Completed; so termination causes are
    the terminal phase, the max-rounds cutoff, or an external stop observed
    by the loop guard — elimination is not one of them. -/
theorem c4_loop_exit_conditions (ls : LoopState) (i : IterInput)
    (hrun : ls.g.is_running = true) (hrc : ls.rounds_completed < maxRounds) :
    ((monitor_loop ls [i]).g.is_running = false ↔
      ((monitor_step ls i).brk = true ∨
        maxRounds ≤ (monitor_step ls i).next.rounds_completed)) ∧
    ((monitor_step ls i).brk = true ↔
      ∃ snap, i.status = StatusResponse.ok snap ∧ snap.tournamentStatus = 2) := by
  constructor
  · simp only [monitor_loop]
    rw [if_pos ⟨hrun, hrc⟩]
    by_cases hb : (monitor_step ls i).brk = true
    · rw [if_pos hb, finishLoop_is_running]
      simp [hb]
    · rw [if_neg hb]
      have hrun2 : (monitor_step ls i).next.g.is_running = true := by
        rw [monitor_step_is_running]
        exact hrun
      by_cases hrc2 : (monitor_step ls i).next.rounds_completed < maxRounds
      · rw [if_pos ⟨hrun2, hrc2⟩, hrun2]
        simp [hb, not_le.mpr hrc2]
      · rw [if_neg (fun hcon => hrc2 hcon.2), finishLoop_is_running]
        simp [hb, not_lt.mp hrc2]
  · cases hs : i.status with
    | err m =>
      rw [monitor_step_err ls i m hs]
      simp
    | ok snap =>
      simp only [monitor_step, hs]
      by_cases h2 : snap.tournamentStatus = 2
      · simp only [if_pos h2]
        constructor
        · intro _
          exact ⟨snap, rfl, h2⟩
        · intro _
          trivial
      · simp only [if_neg h2]
        by_cases hc : canSubmitNow snap = true
        · simp only [if_pos hc]
          cases hsr : i.submitResp with
          | err m => simp [h2]
          | ok b => cases b <;> simp [h2]
        · simp [hc, h2]

/-- Claim C4, witness for `c4_loop_exit_conditions` at a concrete running
    session and a round-5 submission cycle. -/
theorem c4_witness :
    ((monitor_loop c4_ls [c4_input]).g.is_running = false ↔
      ((monitor_step c4_ls c4_input).brk = true ∨
        maxRounds ≤ (monitor_step c4_ls c4_input).next.rounds_completed)) ∧
    ((monitor_step c4_ls c4_input).brk = true ↔
      ∃ snap, c4_input.status = StatusResponse.ok snap ∧ snap.tournamentStatus = 2) :=
  c4_loop_exit_conditions c4_ls c4_input (by decide) (by decide)

/-- Claim C5, counterexample: reconnecting against a results list that is
    not ordered by round number (round 2 first, round 1 last) sets
    `lastCompletedRound` to 1 — the round number of the *last* entry —
    while the maximum round number among the entries is 2. -/
theorem c5_counterexample :
    (reconnect_game 42 (.ok c5_snap) (.list c5_rs)).map GState.last_completed_round
      = some 1 ∧
    specMaxRound c5_rs = 2 ∧ (1 : Int) ≠ 2 := by
  decide

/-- Claim C5, amended: reconnection from a bare player id fails (no session
    is started) when `getStatus` returns an error; on success it rebuilds
    `results` from the returned list and sets `lastCompletedRound` to the
    round number of the list's *last* entry clamped below by 0 (equal to
    the maximum only when the list is ordered by round number), or 0 when
    the list is empty. -/
theorem c5_reconnect_rebuild (pid : Int) (m : String) (snap : StatusSnapshot)
    (rs : List RoundResult) (rResp : ResultsResponse) (h : pid ≠ 0) :
    reconnect_game pid (.err m) rResp = none ∧
    (reconnect_game pid (.ok snap) (.list rs)).map GState.results = some rs ∧
    (reconnect_game pid (.ok snap) (.list rs)).map GState.last_completed_round
      = some (match rs.getLast? with
              | none => 0
              | some r => max 0 r.roundNumber) := by
  have hp : pyTruthyId (some pid) = true := by
    simp [pyTruthyId, h]
  refine ⟨rfl, ?_, ?_⟩
  · unfold reconnect_game
    simp only [Option.map_some']
    rw [gcr_results]
    simp [log_status, initGState, hp]
  · unfold reconnect_game
    simp only [Option.map_some']
    rw [gcr_lcr]
    simp only [log_status, initGState, hp]
    cases hL : rs.getLast? <;> simp [hL, hp]

/-- Claim C5, witness for `c5_reconnect_rebuild` at player id 42 and the
    concrete unordered results list. -/
theorem c5_witness :
    reconnect_game 42 (.err "down") (.list c5_rs) = none ∧
    (reconnect_game 42 (.ok c5_snap) (.list c5_rs)).map GState.results
      = some c5_rs ∧
    (reconnect_game 42 (.ok c5_snap) (.list c5_rs)).map GState.last_completed_round
      = some (match c5_rs.getLast? with
              | none => 0
              | some r => max 0 r.roundNumber) :=
  c5_reconnect_rebuild 42 "down" c5_snap c5_rs (.list c5_rs) (by decide)

/-- Claim C6 (confirmed): `lastCompletedRound` is monotonically
    non-decreasing — across any finite trace of poll cycles (including
    error responses, stale or out-of-order snapshots, submissions and the
    break on completion) and across any sequence of result fetches,
    including responses whose round numbers are lower than previously
    observed. -/
theorem c6_lastCompletedRound_monotone :
    (∀ (ls : LoopState) (inputs : List IterInput),
      ls.g.last_completed_round ≤ (monitor_loop ls inputs).g.last_completed_round) ∧
    (∀ (s : GState) (resps : List ResultsResponse),
      s.last_completed_round
        ≤ (resps.foldl get_current_results s).last_completed_round) :=
  ⟨fun ls inputs => monitor_loop_lcr_le inputs ls,
   fun s resps => foldl_gcr_lcr_le resps s⟩

theorem handleRequest_total (o : ReqOutcome) :
    (∃ d, handleRequest o = ApiResult.payload d) ∨
    (∃ m, handleRequest o = ApiResult.errorDict m) := by
  cases o with
  | requestExc m => exact Or.inr ⟨m, rfl⟩
  | response status body =>
    unfold handleRequest tryRequest
    by_cases h : 400 ≤ status
    · exact Or.inr ⟨httpErrorMsg status, by simp [h]⟩
    · cases body with
      | json doc => exact Or.inl ⟨doc, by simp [h]⟩
      | malformed => exact Or.inr ⟨"JSONDecodeError", by simp [h]⟩

/-- Claim C7, counterexample: the failure value is not typed — a network
    failure (spec class NetworkError) and an HTTP 500 response (spec class
    ServerError 500) produce the *same* returned value, the untyped dict
    with the stringified message, so no classification of the claim's kind
    can be read off the result. -/
theorem c7_counterexample :
    register_player "Alice" c7_o1 = register_player "Alice" c7_o2 ∧
    specClass c7_o1 = SpecClass.networkError ∧
    specClass c7_o2 = SpecClass.serverError 500 := by
  decide

/-- Claim C7, amended: every operation of api_client.py is total over
    request outcomes and raises nothing to its caller — each call performs
    exactly one request and returns either the decoded JSON payload or the
    single untyped error dict (never an uncaught exception); the spec's
    distinct NetworkError / ServerError(code) / MalformedResponse types do
    not exist in the returned value. -/
theorem c7_total_untyped_result (name : String) (player_id round_number : Int)
    (answer : String) (move : Int) (o : ReqOutcome) :
    ((∃ d, register_player name o = ApiResult.payload d) ∨
      (∃ m, register_player name o = ApiResult.errorDict m)) ∧
    ((∃ d, get_player_status player_id o = ApiResult.payload d) ∨
      (∃ m, get_player_status player_id o = ApiResult.errorDict m)) ∧
    ((∃ d, submit_answer player_id round_number answer move o = ApiResult.payload d) ∨
      (∃ m, submit_answer player_id round_number answer move o = ApiResult.errorDict m)) ∧
    ((∃ d, get_player_results player_id o = ApiResult.payload d) ∨
      (∃ m, get_player_results player_id o = ApiResult.errorDict m)) :=
  ⟨handleRequest_total o, handleRequest_total o,
   handleRequest_total o, handleRequest_total o⟩

/-- Claim C8, counterexample: a strategy move "Lizard" (invalid after
    lowercasing) makes `submit_move` return False without any HTTP request
    — no safe default is substituted — and the tournament loop then
    terminates the run instead of continuing. -/
theorem c8_counterexample :
    submit_move (some 3) "Lizard" (.respOk true)
      = { success := false, requested := false } ∧
    playTournamentMoveStep (some 3) (some "Lizard") (.respOk true)
      = RoundStep.runEnds := by
  decide

/-- Claim C8, amended: an invalid strategy move is logged and rejected
    without contacting the server — `submit_move` returns False and makes
    no request, no default move is substituted — and `play_tournament`
    thereupon terminates the tournament run (returns False). -/
theorem c8_invalid_move_rejected (pid : Option Int) (mv : String)
    (http : SubmitHttp) (hpid : pyTruthyId pid = true)
    (hmv : moveCode (pyLower mv) = none) :
    submit_move pid mv http = { success := false, requested := false } ∧
    playTournamentMoveStep pid (some mv) http = RoundStep.runEnds := by
  have hsub : submit_move pid mv http = { success := false, requested := false } := by
    unfold submit_move
    simp [hpid, hmv]
  refine ⟨hsub, ?_⟩
  unfold playTournamentMoveStep
  by_cases hmt : moveTruthy (some mv) = false
  · simp [hmt]
  · rw [if_neg hmt]
    simp [Option.getD, hsub]

/-- Claim C8, witness for `c8_invalid_move_rejected` at the invalid move
    "lizard". -/
theorem c8_witness :
    submit_move (some 3) "lizard" (.respOk true)
      = { success := false, requested := false } ∧
    playTournamentMoveStep (some 3) (some "lizard") (.respOk true)
      = RoundStep.runEnds :=
  c8_invalid_move_rejected (some 3) "lizard" (.respOk true) (by decide) (by decide)

/-- Claim C9 (confirmed): feeding `getResults` responses
    [round 1 / score 2] and then [round 1 / score 2, round 2 / score 1]
    through the aggregation path leaves exactly two entries, a derived
    total score of 3 (the sum of the entries' scores, as the code computes
    it), and `lastCompletedRound` 2. -/
theorem c9_aggregation_scenario :
    (get_current_results (get_current_results c9_g (.list [c9_r1]))
        (.list [c9_r1, c9_r2])).results.length = 2 ∧
    totalScore (get_current_results (get_current_results c9_g (.list [c9_r1]))
        (.list [c9_r1, c9_r2])).results = 3 ∧
    (get_current_results (get_current_results c9_g (.list [c9_r1]))
        (.list [c9_r1, c9_r2])).last_completed_round = 2 := by
  decide

/-- Claim C10 (confirmed): `stop` sets the running flag to false and leaves
    every other field of the session — player identity, current round,
    tournament and round status, results list, lastCompletedRound, latest
    score, and the status log — unchanged. -/
theorem c10_stop_frame (s : GState) :
    (stop s).is_running = false ∧
    (stop s).player_name = s.player_name ∧
    (stop s).player_id = s.player_id ∧
    (stop s).current_round = s.current_round ∧
    (stop s).tournament_status = s.tournament_status ∧
    (stop s).round_status = s.round_status ∧
    (stop s).results = s.results ∧
    (stop s).last_completed_round = s.last_completed_round ∧
    (stop s).latest_score = s.latest_score ∧
    (stop s).status_log = s.status_log :=
  ⟨rfl, rfl, rfl, rfl, rfl, rfl, rfl, rfl, rfl, rfl⟩
